import Mathlib

/-!
Shallow embedding of the model-tiered request orchestrator of
`src/App.tsx` (the service module appended after the `App` component):
key resolution, the timeout wrapper, the access-error classifier, the
tiered fallback executor, key validation, the plan/category generators
and the bespoke image-render fallback.

Asynchrony is modelled by giving each pending operation a settlement
time in milliseconds (`none` when it never settles) next to its
outcome; JavaScript errors are modelled by their message string, the
only thing the source ever inspects on an error.  Functions that make
network calls take the service as an explicit argument (a function
from the resolved key and the request payload to a pending operation)
and, where a claim counts attempts, additionally return the ordered
trace of requests actually issued.
-/

deriving instance DecidableEq for Except

namespace Cinematic

/-- A pending asynchronous operation: the time (ms) at which it settles
(`none` = it never settles) and its outcome, a value or a rejection
carrying the error message. -/
structure AsyncOp (T : Type) where
  settleTime : Option Nat
  outcome : Except String T

/-- `REQUEST_TIMEOUT_MS` of App.tsx. -/
def REQUEST_TIMEOUT_MS : Nat := 45000

/-- `VALIDATION_TIMEOUT_MS` of App.tsx. -/
def VALIDATION_TIMEOUT_MS : Nat := 15000

/-- `PLAN_MODELS` of App.tsx. -/
def PLAN_MODELS : List String := ["gemini-2.5-pro", "gemini-2.5-flash"]

/-- `IMAGE_MODELS.pro` of App.tsx. -/
def IMAGE_MODELS_pro : String := "gemini-3-pro-image-preview"

/-- `IMAGE_MODELS.fallback` of App.tsx. -/
def IMAGE_MODELS_fallback : String := "gemini-2.5-flash-image"

/-- `withTimeout` of App.tsx: race the operation against a timer of `ms`
milliseconds that rejects with message "REQUEST_TIMEOUT".  The
operation's own settlement wins when it happens strictly before the
timer fires; an operation that never settles loses to the timer. -/
def withTimeout {T : Type} (op : AsyncOp T) (ms : Nat) : Except String T :=
  match op.settleTime with
  | none => .error "REQUEST_TIMEOUT"
  | some t => if t < ms then op.outcome else .error "REQUEST_TIMEOUT"

/-- The two environment variables consulted by `resolveApiKey`
(`process.env.API_KEY` and `process.env.GEMINI_API_KEY`); `none`
models an unset variable. -/
structure ProcessEnv where
  apiKeyVar : Option String
  geminiApiKeyVar : Option String

/-- JavaScript truthiness of a `string | undefined` value: `undefined`
and the empty string are falsy. -/
def strTruthy : Option String → Bool
  | some s => !s.isEmpty
  | none => false

/-- `resolveApiKey` of App.tsx:
`apiKey || process.env.API_KEY || process.env.GEMINI_API_KEY`. -/
def resolveApiKey (env : ProcessEnv) (apiKey : Option String) : Option String :=
  if strTruthy apiKey then apiKey
  else if strTruthy env.apiKeyVar then env.apiKeyVar
  else env.geminiApiKeyVar

/-- `getAI` of App.tsx: throws "API_KEY_MISSING" when the resolved key is
falsy, otherwise builds the client.  The client is modelled by the
resolved key it carries. -/
def getAI (env : ProcessEnv) (apiKey : Option String) : Except String String :=
  match resolveApiKey env apiKey with
  | none => .error "API_KEY_MISSING"
  | some s => if s.isEmpty then .error "API_KEY_MISSING" else .ok s

/-- Case-sensitive substring test, JavaScript's `String.includes`. -/
def containsSubstr (s pat : String) : Bool := decide (pat.data <:+: s.data)

/-- Case-insensitive substring test,
JavaScript's `s.toLowerCase().includes(pat)` (ASCII lowering). -/
def containsCI (s pat : String) : Bool :=
  decide (pat.data.map Char.toLower <:+: s.data.map Char.toLower)

/-- `isModelAccessError` of App.tsx, as a predicate on the error's
message string (the source reads `String(error?.message || "")`). -/
def isModelAccessError (message : String) : Bool :=
  message == "REQUEST_TIMEOUT" ||
  containsSubstr message "Requested entity was not found" ||
  containsCI message "not found" ||
  containsCI message "permission" ||
  containsCI message "denied" ||
  containsCI message "not authorized"

/-- Modelled from the spec: the access-class predicate as §4.2 words it —
"timeout, or an error whose message indicates \"entity not found\",
\"not found\", \"permission\", \"denied\", or \"not authorized\" —
matched case-insensitively against substrings". -/
def specAccessClass (isTimeout : Bool) (message : String) : Bool :=
  isTimeout ||
  containsCI message "entity not found" ||
  containsCI message "not found" ||
  containsCI message "permission" ||
  containsCI message "denied" ||
  containsCI message "not authorized"

/-- A case-sensitive hit on "Requested entity was not found" is also a
case-insensitive hit on "not found". -/
lemma containsSubstr_requested_imp (msg : String)
    (h : containsSubstr msg "Requested entity was not found" = true) :
    containsCI msg "not found" = true := by
  unfold containsSubstr at h
  unfold containsCI
  rw [decide_eq_true_eq] at h ⊢
  exact List.IsInfix.trans (by decide) (h.map Char.toLower)

/-- A case-insensitive hit on "entity not found" is also a
case-insensitive hit on "not found". -/
lemma containsCI_entity_imp (msg : String)
    (h : containsCI msg "entity not found" = true) :
    containsCI msg "not found" = true := by
  unfold containsCI at h ⊢
  rw [decide_eq_true_eq] at h ⊢
  exact List.IsInfix.trans (by decide) h

/-- C2: for every error (modelled by its message), `isModelAccessError`
classifies it as access-class exactly when the spec's definition does:
it is a timeout (the sentinel message "REQUEST_TIMEOUT"), or the
message contains one of "entity not found", "not found", "permission",
"denied", "not authorized" case-insensitively.  The code's extra
case-sensitive check for "Requested entity was not found" and the
spec's "entity not found" clause are both subsumed by "not found". -/
theorem isModelAccessError_iff_spec (message : String) :
    isModelAccessError message =
      specAccessClass (message == "REQUEST_TIMEOUT") message := by
  unfold isModelAccessError specAccessClass
  cases hA : containsSubstr message "Requested entity was not found" with
  | true => simp [containsSubstr_requested_imp message hA]
  | false =>
    cases hB : containsCI message "entity not found" with
    | true => simp [containsCI_entity_imp message hB]
    | false => simp

/-- Loop body of `generateWithFallback` of App.tsx, instrumented with
the ordered list of models actually attempted (second component).
`lastErr` is the running `lastError`; with an empty model list the
source throws the still-undefined `lastError`, modelled as the empty
message (the spec calls an empty tier list a programming error). -/
def runFallback {T : Type} (attempt : String → Except String T) :
    List String → Option String → Except String T × List String
  | [], lastErr => (.error (lastErr.getD ""), [])
  | m :: ms, _ =>
    match attempt m with
    | .ok v => (.ok v, [m])
    | .error e =>
      if isModelAccessError e then
        let rest := runFallback attempt ms (some e)
        (rest.1, m :: rest.2)
      else (.error e, [m])

/-- `generateWithFallback` of App.tsx: each tier attempt is the request
factory's operation for that model bounded by `REQUEST_TIMEOUT_MS`. -/
def generateWithFallback {T : Type} (factory : String → AsyncOp T)
    (models : List String) : Except String T × List String :=
  runFallback (fun m => withTimeout (factory m) REQUEST_TIMEOUT_MS) models none

/-- C1: if the first tier's attempt fails with an error that is not
access-class, `generateWithFallback` surfaces exactly that error and
the attempt trace is the first tier alone — zero attempts against any
later tier. -/
theorem generateWithFallback_hard_stop {T : Type} (factory : String → AsyncOp T)
    (m : String) (ms : List String) (e : String)
    (hfail : withTimeout (factory m) REQUEST_TIMEOUT_MS = .error e)
    (hclass : isModelAccessError e = false) :
    generateWithFallback factory (m :: ms) = (.error e, [m]) := by
  unfold generateWithFallback runFallback
  simp [hfail, hclass]

/-- Witness for C1 at a concrete input: a factory whose every attempt
settles immediately with the non-access error "quota exceeded hard". -/
theorem generateWithFallback_hard_stop_witness :
    generateWithFallback
        (fun _ => AsyncOp.mk (some 0)
          (Except.error "quota exceeded hard" : Except String Nat))
        ["gemini-2.5-pro", "gemini-2.5-flash"] =
      (Except.error "quota exceeded hard", ["gemini-2.5-pro"]) :=
  generateWithFallback_hard_stop _ _ _ _ (by decide) (by decide)

/-- The pair returned by `validateApiKey`. -/
structure ValidationResult where
  valid : Bool
  proAvailable : Bool
deriving DecidableEq

/-- `validateApiKey` of App.tsx, instrumented with the ordered list of
models actually probed over the network (second component).  The outer
`catch` turns any non-access premium-probe failure and any standard-
probe failure into `{valid: false, proAvailable: false}`. -/
def validateApiKey (probe : String → String → AsyncOp Unit) (env : ProcessEnv)
    (apiKey : Option String) : ValidationResult × List String :=
  match resolveApiKey env apiKey with
  | none => ({ valid := false, proAvailable := false }, [])
  | some key =>
    if key.isEmpty then ({ valid := false, proAvailable := false }, [])
    else
      match withTimeout (probe key (PLAN_MODELS.getD 0 "")) VALIDATION_TIMEOUT_MS with
      | .ok _ => ({ valid := true, proAvailable := true }, [PLAN_MODELS.getD 0 ""])
      | .error e =>
        if isModelAccessError e then
          match withTimeout (probe key (PLAN_MODELS.getD 1 "")) VALIDATION_TIMEOUT_MS with
          | .ok _ =>
            ({ valid := true, proAvailable := false },
             [PLAN_MODELS.getD 0 "", PLAN_MODELS.getD 1 ""])
          | .error _ =>
            ({ valid := false, proAvailable := false },
             [PLAN_MODELS.getD 0 "", PLAN_MODELS.getD 1 ""])
        else ({ valid := false, proAvailable := false }, [PLAN_MODELS.getD 0 ""])

/-- C5: with no explicit credential and no truthy process-wide default,
`validateApiKey` returns `{valid: false, proAvailable: false}` and
probes no model at all (empty attempt trace). -/
theorem validateApiKey_no_credential (probe : String → String → AsyncOp Unit)
    (env : ProcessEnv)
    (h1 : strTruthy env.apiKeyVar = false)
    (h2 : strTruthy env.geminiApiKeyVar = false) :
    validateApiKey probe env none =
      ({ valid := false, proAvailable := false }, []) := by
  unfold validateApiKey resolveApiKey
  rw [h1]
  cases hg : env.geminiApiKeyVar with
  | none => simp [strTruthy]
  | some s =>
    rw [hg] at h2
    simp only [strTruthy, Bool.not_eq_false'] at h2
    simp [strTruthy, h2]

/-- Witness for C5 at a concrete input: both environment variables
unset, a probe that would always succeed immediately. -/
theorem validateApiKey_no_credential_witness :
    validateApiKey (fun _ _ => AsyncOp.mk (some 0) (Except.ok ()))
        (ProcessEnv.mk none none) none =
      ({ valid := false, proAvailable := false }, []) :=
  validateApiKey_no_credential _ _ (by decide) (by decide)

/-- C6: with a resolvable credential, when the premium-tier probe fails
with an access-class error and the standard-tier probe succeeds,
`validateApiKey` returns `{valid: true, proAvailable: false}` (having
probed exactly the two text tiers in order). -/
theorem validateApiKey_tier_fallback (probe : String → String → AsyncOp Unit)
    (env : ProcessEnv) (apiKey : Option String) (key : String) (e : String)
    (hkey : resolveApiKey env apiKey = some key)
    (hne : key.isEmpty = false)
    (hpro : withTimeout (probe key "gemini-2.5-pro") VALIDATION_TIMEOUT_MS =
      .error e)
    (hacc : isModelAccessError e = true)
    (hstd : withTimeout (probe key "gemini-2.5-flash") VALIDATION_TIMEOUT_MS =
      .ok ()) :
    validateApiKey probe env apiKey =
      ({ valid := true, proAvailable := false },
       ["gemini-2.5-pro", "gemini-2.5-flash"]) := by
  unfold validateApiKey
  rw [hkey]
  simp only [hne, show PLAN_MODELS.getD 0 "" = "gemini-2.5-pro" from rfl,
    show PLAN_MODELS.getD 1 "" = "gemini-2.5-flash" from rfl,
    hpro, hacc, hstd]
  simp

/-- Witness for C6 at a concrete input: premium probe settles with
"permission denied", standard probe settles with success. -/
theorem validateApiKey_tier_fallback_witness :
    validateApiKey
        (fun _ model =>
          if model == "gemini-2.5-pro" then
            AsyncOp.mk (some 0) (Except.error "permission denied")
          else AsyncOp.mk (some 0) (Except.ok ()))
        (ProcessEnv.mk none none) (some "my-key") =
      ({ valid := true, proAvailable := false },
       ["gemini-2.5-pro", "gemini-2.5-flash"]) :=
  validateApiKey_tier_fallback _ _ _ "my-key" "permission denied"
    (by decide) (by decide) (by decide) (by decide) (by decide)

/-- C9: the timeout wrapper yields the wrapped operation's own outcome
(value or its own error) when it settles strictly before the deadline,
and the distinguished failure with sentinel message "REQUEST_TIMEOUT"
when the operation never settles or settles no earlier than the
deadline. -/
theorem withTimeout_spec {T : Type} (op : AsyncOp T) (ms : Nat) :
    (∀ t, op.settleTime = some t → t < ms → withTimeout op ms = op.outcome) ∧
    (op.settleTime = none →
      withTimeout op ms = Except.error "REQUEST_TIMEOUT") ∧
    (∀ t, op.settleTime = some t → ms ≤ t →
      withTimeout op ms = Except.error "REQUEST_TIMEOUT") := by
  refine ⟨fun t ht hlt => ?_, fun hnone => ?_, fun t ht hge => ?_⟩
  · unfold withTimeout
    rw [ht]
    simp [hlt]
  · unfold withTimeout
    rw [hnone]
  · unfold withTimeout
    rw [ht]
    simp [Nat.not_lt.mpr hge]

/-- Witness for C9 at concrete inputs: an operation settling at 3 ms
with value 7 under a 10 ms deadline yields its own value; one that
never settles yields the "REQUEST_TIMEOUT" failure. -/
theorem withTimeout_spec_witness :
    withTimeout (AsyncOp.mk (some 3) (Except.ok (7 : Nat))) 10 = Except.ok 7 ∧
    withTimeout (AsyncOp.mk none (Except.ok (7 : Nat))) 10 =
      Except.error "REQUEST_TIMEOUT" :=
  ⟨(withTimeout_spec (AsyncOp.mk (some 3) (Except.ok 7)) 10).1 3 rfl
      (by decide),
   (withTimeout_spec (AsyncOp.mk none (Except.ok (7 : Nat))) 10).2.1 rfl⟩

/-- JavaScript `s.split(',')[1]`: the second comma-separated field of a
data URL, `undefined` (here `none`) when there is no comma. -/
def splitComma1 (s : String) : Option String :=
  match s.splitOn "," with
  | _ :: second :: _ => some second
  | _ => none

/-- JavaScript `s || d` on strings: the empty string is falsy. -/
def jsOrStr (s d : String) : String := if s.isEmpty then d else s

/-- JavaScript `v || d` with `v : string | null`. -/
def jsOrOptStr (v : Option String) (d : String) : String :=
  match v with
  | some s => jsOrStr s d
  | none => d

/-- `AppMode` of types.ts. -/
inductive AppMode
  | home
  | shorts
  | whatsNext
  | zooms
deriving DecidableEq

/-- `ZoomDirection` of types.ts (the literals 'in' and 'out'). -/
inductive ZoomDirection
  | zoomIn
  | zoomOut
deriving DecidableEq

/-- One entry of `StoryboardPlan.angles` of types.ts. -/
structure PlanAngle where
  name : String
  prompt : String
  promptKo : String
deriving DecidableEq

/-- `StoryboardPlan` of types.ts. -/
structure StoryboardPlan where
  subject : String
  style : String
  resolution : String
  aspectRatio : String
  angles : List PlanAngle
deriving DecidableEq

/-- One text-model request of App.tsx: the model name, the inline image
payload (`none` when the contents are plain text, as in
`updatePromptsWithEdits`), and the instruction text.  The constant
response-format metadata of each call site (`responseMimeType` and
`responseSchema`) is fixed per function and absorbed into the service
argument. -/
structure PlanRequest where
  model : String
  inlineData : Option String
  instruction : String
deriving DecidableEq

/-- `commonInstruction` of `analyzeImageToStoryboardPlan`. -/
def commonInstruction : String :=
  "**CRITICAL CHARACTER CONSISTENCY RULE:**\n" ++
  "1. Analyze the person in the source image with extreme precision:\n" ++
  "   - Ethnicity: (e.g., East Asian, Caucasian, etc.)\n" ++
  "   - Facial Features: (e.g., eye shape, nose, smile, facial structure)\n" ++
  "   - Hairstyle: (e.g., long black hair with bangs, bob, etc.)\n" ++
  "   - Clothing: (e.g., white linen shirt, specific patterns)\n" ++
  "2. In the 'subject' field, write a definitive physical description that locks this identity.\n" ++
  "3. Every shot prompt must start with: \"High-quality realistic photo of the EXACT same person from the reference image, maintaining their identical face, hair, and outfit: \""

/-- `shortsPrompt` of `analyzeImageToStoryboardPlan`. -/
def shortsPrompt : String :=
  commonInstruction ++ "\n" ++
  "당신은 전문적인 '시네마틱 스토리보드 아티스트'입니다.\n" ++
  "이미지를 분석하여 9가지 시네마틱 앵글을 설계하세요.\n" ++
  "모든 prompt는 영어로, promptKo는 한국어로 작성하세요."

/-- `whatsNextPrompt` of `analyzeImageToStoryboardPlan`; the topic is
`category || '일반적인 서사'`. -/
def whatsNextPrompt (category : Option String) : String :=
  commonInstruction ++ "\n" ++
  "당신은 전문적인 '비주얼 스토리텔러'입니다.\n" ++
  "주제: [" ++ jsOrOptStr category "일반적인 서사" ++ "]\n" ++
  "9가지 연속된 스토리 장면을 구상하세요.\n" ++
  "인물의 일관성이 절대적으로 유지되어야 합니다. 외국인이나 다른 인물로 바뀌지 않도록 주의하세요.\n" ++
  "모든 prompt는 상세한 영어로 작성하고, promptKo는 한국어로 작성하세요."

/-- `zoomsPrompt` of `analyzeImageToStoryboardPlan`. -/
def zoomsPrompt (zoomDirection : ZoomDirection) : String :=
  commonInstruction ++ "\n" ++
  "당신은 전문적인 '시네마틱 비주얼 이펙트(VFX) 감독'입니다.\n" ++
  "줌 모드: [" ++
  (if zoomDirection = ZoomDirection.zoomIn then "확대(Zoom-in)" else "축소(Zoom-out)") ++
  "]\n" ++
  "9단계 줌 시퀀스를 설계하세요. 모든 단계에서 인물의 특징이 완벽히 유지되어야 합니다."

/-- The prompt of `suggestNarrativeCategories`. -/
def categoriesPrompt : String :=
  "이미지를 보고 이후에 이어질 수 있는 스토리 카테고리를 5개 추천해주세요.\n" ++
  "JSON 배열 형태 [\"카테고리1\", ...] 로만 응답하세요."

/-- The fixed default category list of `suggestNarrativeCategories`. -/
def DEFAULT_CATEGORIES : List String := ["액션", "드라마", "SF", "판타지", "일상"]

/-- The request `suggestNarrativeCategories` builds for one model. -/
def suggestRequest (base64Image : String) (model : String) : PlanRequest :=
  { model := model, inlineData := splitComma1 base64Image,
    instruction := categoriesPrompt }

/-- `suggestNarrativeCategories` of App.tsx.  `svc` is the external
service (resolved key and request to pending response text) and
`parseStringArray` is `JSON.parse` specialised to the schema-decoded
string array (it throws on malformed content). -/
def suggestNarrativeCategories
    (svc : String → PlanRequest → AsyncOp (Option String))
    (parseStringArray : String → Except String (List String))
    (env : ProcessEnv) (base64Image : String) (apiKey : Option String) :
    Except String (List String) :=
  match getAI env apiKey with
  | .error e => .error e
  | .ok key =>
    match (generateWithFallback
        (fun model => svc key (suggestRequest base64Image model))
        PLAN_MODELS).1 with
    | .error e => .error e
    | .ok text =>
      if strTruthy text then parseStringArray (text.getD "")
      else .ok DEFAULT_CATEGORIES

/-- The `systemInstruction` selection of `analyzeImageToStoryboardPlan`. -/
def systemInstruction (mode : AppMode) (category : Option String)
    (zoomDirection : ZoomDirection) : String :=
  if mode = AppMode.whatsNext then whatsNextPrompt category
  else if mode = AppMode.zooms then zoomsPrompt zoomDirection
  else shortsPrompt

/-- The request `analyzeImageToStoryboardPlan` builds for one model. -/
def analyzeRequest (base64Image : String) (mode : AppMode)
    (category : Option String) (zoomDirection : ZoomDirection)
    (model : String) : PlanRequest :=
  { model := model, inlineData := splitComma1 base64Image,
    instruction := systemInstruction mode category zoomDirection }

/-- `analyzeImageToStoryboardPlan` of App.tsx; `parsePlan` is
`JSON.parse` specialised to the plan schema. -/
def analyzeImageToStoryboardPlan
    (svc : String → PlanRequest → AsyncOp (Option String))
    (parsePlan : String → Except String StoryboardPlan)
    (env : ProcessEnv) (base64Image : String) (mode : AppMode)
    (category : Option String) (zoomDirection : ZoomDirection)
    (apiKey : Option String) : Except String StoryboardPlan :=
  match getAI env apiKey with
  | .error e => .error e
  | .ok key =>
    match (generateWithFallback
        (fun model => svc key (analyzeRequest base64Image mode category zoomDirection model))
        PLAN_MODELS).1 with
    | .error e => .error e
    | .ok text =>
      if strTruthy text then parsePlan (text.getD "")
      else .error "AI 응답 실패"

/-- The prompt of `updatePromptsWithEdits`. -/
def updatePrompt (plan : StoryboardPlan) : String :=
  "다음 수정 사항을 바탕으로 9개의 장면 프롬프트를 다시 작성하세요.\n" ++
  "인물의 일관성이 최우선입니다.\n" ++
  "[Identity Lock] " ++ plan.subject ++ "\n" ++
  "[Visual Style] " ++ plan.style ++ "\n\n" ++
  "규칙: 모든 프롬프트는 \"Based on the reference photo, maintaining the exact same identity, face, and attire: \"로 시작해야 합니다."

/-- The request `updatePromptsWithEdits` builds for one model (text-only
contents: no inline image part). -/
def updateRequest (plan : StoryboardPlan) (model : String) : PlanRequest :=
  { model := model, inlineData := none, instruction := updatePrompt plan }

/-- `updatePromptsWithEdits` of App.tsx (its `mode` parameter is unused
by the body, as in the source). -/
def updatePromptsWithEdits
    (svc : String → PlanRequest → AsyncOp (Option String))
    (parsePlan : String → Except String StoryboardPlan)
    (env : ProcessEnv) (plan : StoryboardPlan) (mode : AppMode)
    (apiKey : Option String) : Except String StoryboardPlan :=
  match getAI env apiKey with
  | .error e => .error e
  | .ok key =>
    match (generateWithFallback
        (fun model => svc key (updateRequest plan model))
        PLAN_MODELS).1 with
    | .error e => .error e
    | .ok text =>
      if strTruthy text then parsePlan (text.getD "")
      else .error "업데이트 실패"

/-- The `config` parameter of `generateStoryShot`:
`{aspectRatio: string, resolution: string}`. -/
structure ImageConfigIn where
  aspectRatio : String
  resolution : String
deriving DecidableEq

/-- The `imageConfig` actually sent on one image request; `imageSize`
is `undefined` (here `none`) on the standard tier. -/
structure ImageConfigOut where
  aspectRatio : String
  imageSize : Option String
deriving DecidableEq

/-- One image-model request of App.tsx `generateStoryShot`. -/
structure ImgRequest where
  model : String
  inlineData : Option String
  instruction : String
  imageConfig : ImageConfigOut
deriving DecidableEq

/-- The instruction text `generateStoryShot` builds around one scene
prompt. -/
def shotInstruction (prompt : String) : String :=
  "STRICT IDENTITY MATCH REQUIRED:\n" ++
  "Look at the person in the provided image. Replicate their EXACT facial features, hair, and clothing in a new scene.\n\n" ++
  "SCENE DESCRIPTION: " ++ prompt ++ "\n\n" ++
  "STYLE: Cinematic, professional photography, high-end resolution, masterwork quality.\n" ++
  "No variations in the person's identity allowed."

/-- The primary request of `generateStoryShot`: the premium image model
when `isPro`, else the standard one; `imageSize` is
`isPro ? (config.resolution || "1K") : undefined`. -/
def shotPrimaryRequest (prompt originalImageBase64 : String) (isPro : Bool)
    (config : ImageConfigIn) : ImgRequest :=
  { model := if isPro then IMAGE_MODELS_pro else IMAGE_MODELS_fallback,
    inlineData := splitComma1 originalImageBase64,
    instruction := shotInstruction prompt,
    imageConfig :=
      { aspectRatio := jsOrStr config.aspectRatio "16:9",
        imageSize := if isPro then some (jsOrStr config.resolution "1K") else none } }

/-- The single-demotion fallback request of `generateStoryShot`: the
standard image model, with no `imageSize`. -/
def shotFallbackRequest (prompt originalImageBase64 : String)
    (config : ImageConfigIn) : ImgRequest :=
  { model := IMAGE_MODELS_fallback,
    inlineData := splitComma1 originalImageBase64,
    instruction := shotInstruction prompt,
    imageConfig :=
      { aspectRatio := jsOrStr config.aspectRatio "16:9", imageSize := none } }

/-- The scan of `response.candidates?.[0]?.content?.parts || []` for the
first part with `inlineData`; a response is modelled by that list of
parts, each part by its optional `inlineData.data`. -/
def firstInline : List (Option String) → Option String
  | [] => none
  | none :: rest => firstInline rest
  | some d :: _ => some d

/-- `generateStoryShot` of App.tsx, instrumented with the ordered list
of image requests actually issued (second component).  Control flow of
the source: a primary attempt under `REQUEST_TIMEOUT_MS`; on an
access-class or timeout failure of a premium attempt, one fallback
attempt against the standard model under the same deadline, whose own
failure propagates directly out of the `catch` block (skipping the
`API_KEY_INVALID` classification); otherwise the caught error is
classified by the case-sensitive substring
"Requested entity was not found". -/
def generateStoryShot (svc : String → ImgRequest → AsyncOp (List (Option String)))
    (env : ProcessEnv) (prompt originalImageBase64 : String) (isPro : Bool)
    (config : ImageConfigIn) (apiKey : Option String) :
    Except String String × List ImgRequest :=
  match resolveApiKey env apiKey with
  | none => (.error "API_KEY_MISSING", [])
  | some key =>
    if key.isEmpty then (.error "API_KEY_MISSING", [])
    else
      let req1 := shotPrimaryRequest prompt originalImageBase64 isPro config
      match withTimeout (svc key req1) REQUEST_TIMEOUT_MS with
      | .ok parts =>
        match firstInline parts with
        | some d => (.ok ("data:image/png;base64," ++ d), [req1])
        | none => (.error "이미지 생성 실패", [req1])
      | .error e =>
        if isPro && (isModelAccessError e || e == "REQUEST_TIMEOUT") then
          let req2 := shotFallbackRequest prompt originalImageBase64 config
          match withTimeout (svc key req2) REQUEST_TIMEOUT_MS with
          | .ok parts2 =>
            match firstInline parts2 with
            | some d => (.ok ("data:image/png;base64," ++ d), [req1, req2])
            | none =>
              if containsSubstr e "Requested entity was not found" then
                (.error "API_KEY_INVALID", [req1, req2])
              else (.error e, [req1, req2])
          | .error e2 => (.error e2, [req1, req2])
        else
          if containsSubstr e "Requested entity was not found" then
            (.error "API_KEY_INVALID", [req1])
          else (.error e, [req1])

/-- Reduction of `generateStoryShot` on the premium path whose primary
attempt fails with an access-class or timeout error: the body becomes
the handling of the single fallback attempt. -/
lemma generateStoryShot_premium_access_reduce
    (svc : String → ImgRequest → AsyncOp (List (Option String)))
    (env : ProcessEnv) (prompt img : String) (config : ImageConfigIn)
    (apiKey : Option String) (key e : String)
    (hkey : resolveApiKey env apiKey = some key)
    (hne : key.isEmpty = false)
    (hfail : withTimeout (svc key (shotPrimaryRequest prompt img true config))
        REQUEST_TIMEOUT_MS = .error e)
    (hcond : (isModelAccessError e || e == "REQUEST_TIMEOUT") = true) :
    generateStoryShot svc env prompt img true config apiKey =
      match withTimeout (svc key (shotFallbackRequest prompt img config))
          REQUEST_TIMEOUT_MS with
      | .ok parts2 =>
        (match firstInline parts2 with
         | some d =>
           (.ok ("data:image/png;base64," ++ d),
            [shotPrimaryRequest prompt img true config,
             shotFallbackRequest prompt img config])
         | none =>
           if containsSubstr e "Requested entity was not found" then
             (.error "API_KEY_INVALID",
              [shotPrimaryRequest prompt img true config,
               shotFallbackRequest prompt img config])
           else
             (.error e,
              [shotPrimaryRequest prompt img true config,
               shotFallbackRequest prompt img config]))
      | .error e2 =>
        (.error e2,
         [shotPrimaryRequest prompt img true config,
          shotFallbackRequest prompt img config]) := by
  unfold generateStoryShot
  rw [hkey]
  simp only [hne, Bool.false_eq_true, if_false, hfail, hcond, Bool.true_and,
    if_true]

/-- C3: on a premium render whose premium attempt fails with an
access-class error or a timeout, exactly one retry happens — against
the standard image model, with `imageSize` omitted — and the overall
outcome is decided by that single fallback attempt under the same
`REQUEST_TIMEOUT_MS` deadline; the attempt trace is exactly the
premium request followed by the fallback request, so no further
retries occur. -/
theorem generateStoryShot_premium_single_demotion
    (svc : String → ImgRequest → AsyncOp (List (Option String)))
    (env : ProcessEnv) (prompt img : String) (config : ImageConfigIn)
    (apiKey : Option String) (key e : String)
    (hkey : resolveApiKey env apiKey = some key)
    (hne : key.isEmpty = false)
    (hfail : withTimeout (svc key (shotPrimaryRequest prompt img true config))
        REQUEST_TIMEOUT_MS = .error e)
    (hacc : isModelAccessError e = true ∨ e = "REQUEST_TIMEOUT") :
    (generateStoryShot svc env prompt img true config apiKey).2 =
      [shotPrimaryRequest prompt img true config,
       shotFallbackRequest prompt img config] ∧
    (shotFallbackRequest prompt img config).model = IMAGE_MODELS_fallback ∧
    (shotFallbackRequest prompt img config).imageConfig.imageSize = none ∧
    (∀ e2, withTimeout (svc key (shotFallbackRequest prompt img config))
        REQUEST_TIMEOUT_MS = .error e2 →
      (generateStoryShot svc env prompt img true config apiKey).1 =
        .error e2) ∧
    (∀ parts d,
      withTimeout (svc key (shotFallbackRequest prompt img config))
        REQUEST_TIMEOUT_MS = .ok parts →
      firstInline parts = some d →
      (generateStoryShot svc env prompt img true config apiKey).1 =
        .ok ("data:image/png;base64," ++ d)) := by
  have hcond : (isModelAccessError e || e == "REQUEST_TIMEOUT") = true := by
    rcases hacc with h | h
    · rw [h, Bool.true_or]
    · subst h
      simp [isModelAccessError]
  have hred := generateStoryShot_premium_access_reduce svc env prompt img
    config apiKey key e hkey hne hfail hcond
  refine ⟨?_, rfl, rfl, ?_, ?_⟩
  · rw [hred]
    cases h2 : withTimeout (svc key (shotFallbackRequest prompt img config))
        REQUEST_TIMEOUT_MS with
    | error e2 => rfl
    | ok parts2 =>
      cases h3 : firstInline parts2 with
      | none =>
        cases hc : containsSubstr e "Requested entity was not found" <;>
          simp [h3, hc]
      | some d => simp [h3]
  · intro e2 h2
    rw [hred, h2]
  · intro parts d h2 h3
    rw [hred, h2]
    simp [h3]

/-- Witness for C3 at a concrete input: the premium model rejects with
"permission denied" at once, the standard model immediately returns a
response whose first part carries inline data "QUJD". -/
theorem generateStoryShot_premium_single_demotion_witness :
    (generateStoryShot
        (fun _ req =>
          if req.model == IMAGE_MODELS_pro then
            AsyncOp.mk (some 0) (Except.error "permission denied")
          else AsyncOp.mk (some 0) (Except.ok [some "QUJD"]))
        (ProcessEnv.mk none none) "hero shot" "data:image/jpeg;base64,QUJD"
        true (ImageConfigIn.mk "16:9" "2K") (some "key123")).2 =
      [shotPrimaryRequest "hero shot" "data:image/jpeg;base64,QUJD" true
        (ImageConfigIn.mk "16:9" "2K"),
       shotFallbackRequest "hero shot" "data:image/jpeg;base64,QUJD"
        (ImageConfigIn.mk "16:9" "2K")] :=
  (generateStoryShot_premium_single_demotion _ _ _ _ _ _ "key123"
    "permission denied" (by decide) (by decide) (by decide)
    (Or.inl (by decide))).1

/-- C4 counterexample: a primary standard-tier attempt (premium not
requested) that fails with message "entity was not found" — which
contains the claim's substring "entity was not found" but not the
code's "Requested entity was not found" — surfaces the underlying
error unchanged, not `API_KEY_INVALID` as the claim requires. -/
theorem generateStoryShot_std_error_counterexample :
    (generateStoryShot
        (fun _ _ => AsyncOp.mk (some 0)
          (Except.error "entity was not found" : Except String (List (Option String))))
        (ProcessEnv.mk none none) "p" "img,abc" false
        (ImageConfigIn.mk "16:9" "1K") (some "k")).1 =
      Except.error "entity was not found" ∧
    containsSubstr "entity was not found" "entity was not found" = true ∧
    (Except.error "entity was not found" : Except String String) ≠
      Except.error "API_KEY_INVALID" := by
  refine ⟨by decide, by decide, by decide⟩

/-- C4 (amended): the `API_KEY_INVALID` classification of
`generateStoryShot` always tests the error caught from the *primary*
attempt for the case-sensitive substring
"Requested entity was not found" (not the spec's
"entity was not found").  It runs (a) when premium was not requested
and the standard primary attempt fails, (c) when a premium primary
attempt fails with a non-access error, and (d) when, after a premium
access-class failure, the fallback attempt succeeds transport-wise but
its response carries no inline-image part — then the *primary* error
is classified and surfaced.  It is bypassed exactly on path (b): when
the fallback attempt itself fails, that failure's error is surfaced
unchanged. -/
theorem generateStoryShot_error_surfacing
    (svc : String → ImgRequest → AsyncOp (List (Option String)))
    (env : ProcessEnv) (prompt img : String) (config : ImageConfigIn)
    (apiKey : Option String) (key : String)
    (hkey : resolveApiKey env apiKey = some key)
    (hne : key.isEmpty = false) :
    (∀ e, withTimeout (svc key (shotPrimaryRequest prompt img false config))
        REQUEST_TIMEOUT_MS = .error e →
      (generateStoryShot svc env prompt img false config apiKey).1 =
        (if containsSubstr e "Requested entity was not found" then
          Except.error "API_KEY_INVALID" else Except.error e)) ∧
    (∀ e e2, withTimeout (svc key (shotPrimaryRequest prompt img true config))
        REQUEST_TIMEOUT_MS = .error e →
      (isModelAccessError e || e == "REQUEST_TIMEOUT") = true →
      withTimeout (svc key (shotFallbackRequest prompt img config))
        REQUEST_TIMEOUT_MS = .error e2 →
      (generateStoryShot svc env prompt img true config apiKey).1 =
        Except.error e2) ∧
    (∀ e, withTimeout (svc key (shotPrimaryRequest prompt img true config))
        REQUEST_TIMEOUT_MS = .error e →
      (isModelAccessError e || e == "REQUEST_TIMEOUT") = false →
      (generateStoryShot svc env prompt img true config apiKey).1 =
        (if containsSubstr e "Requested entity was not found" then
          Except.error "API_KEY_INVALID" else Except.error e)) ∧
    (∀ e parts2,
      withTimeout (svc key (shotPrimaryRequest prompt img true config))
        REQUEST_TIMEOUT_MS = .error e →
      (isModelAccessError e || e == "REQUEST_TIMEOUT") = true →
      withTimeout (svc key (shotFallbackRequest prompt img config))
        REQUEST_TIMEOUT_MS = .ok parts2 →
      firstInline parts2 = none →
      (generateStoryShot svc env prompt img true config apiKey).1 =
        (if containsSubstr e "Requested entity was not found" then
          Except.error "API_KEY_INVALID" else Except.error e)) := by
  refine ⟨fun e hfail => ?_, fun e e2 hfail hcond h2 => ?_,
    fun e hfail hcond => ?_, fun e parts2 hfail hcond h2 h3 => ?_⟩
  · unfold generateStoryShot
    rw [hkey]
    simp only [hne, Bool.false_eq_true, if_false, hfail, Bool.false_and]
    cases hc : containsSubstr e "Requested entity was not found" <;> simp [hc]
  · rw [generateStoryShot_premium_access_reduce svc env prompt img config
      apiKey key e hkey hne hfail hcond, h2]
  · unfold generateStoryShot
    rw [hkey]
    simp only [hne, Bool.false_eq_true, if_false, hfail, Bool.true_and, hcond]
    cases hc : containsSubstr e "Requested entity was not found" <;> simp [hc]
  · rw [generateStoryShot_premium_access_reduce svc env prompt img config
      apiKey key e hkey hne hfail hcond, h2]
    cases hc : containsSubstr e "Requested entity was not found" <;>
      simp [h3, hc]

/-- Witness for the amended C4 at concrete inputs, exercising branch
(b) — premium fails with the access-class message "denied", the
fallback attempt fails with "boom", and "boom" is surfaced — and
branch (d) — premium fails with "Requested entity was not found", the
fallback attempt succeeds with an empty parts list, and
`API_KEY_INVALID` is surfaced. -/
theorem generateStoryShot_error_surfacing_witness :
    (generateStoryShot
        (fun _ req =>
          if req.model == IMAGE_MODELS_pro then
            AsyncOp.mk (some 0) (Except.error "denied")
          else AsyncOp.mk (some 0) (Except.error "boom"))
        (ProcessEnv.mk none none) "p" "i,mg" true (ImageConfigIn.mk "" "")
        (some "k")).1 = Except.error "boom" ∧
    (generateStoryShot
        (fun _ req =>
          if req.model == IMAGE_MODELS_pro then
            AsyncOp.mk (some 0)
              (Except.error "Requested entity was not found")
          else AsyncOp.mk (some 0) (Except.ok []))
        (ProcessEnv.mk none none) "p" "i,mg" true (ImageConfigIn.mk "" "")
        (some "k")).1 = Except.error "API_KEY_INVALID" :=
  ⟨(generateStoryShot_error_surfacing _ _ _ _ _ _ "k" (by decide)
      (by decide)).2.1 "denied" "boom" (by decide) (by decide) (by decide),
   ((generateStoryShot_error_surfacing _ _ _ _ _ _ "k" (by decide)
      (by decide)).2.2.2 "Requested entity was not found" [] (by decide)
      (by decide) (by decide) rfl).trans (by decide)⟩

/-- C7 counterexample: a category-suggestion call whose tiered request
succeeds transport-wise with absent response text returns the default
category list — it does not fail with any error, contradicting the
claim's inclusion of category-suggestion calls. -/
theorem suggest_empty_counterexample :
    suggestNarrativeCategories
        (fun _ _ => AsyncOp.mk (some 0) (Except.ok (none : Option String)))
        (fun _ => Except.error "PARSE") (ProcessEnv.mk none none)
        "img,abc" (some "k") =
      Except.ok ["액션", "드라마", "SF", "판타지", "일상"] := by decide

/-- C7 (amended): for every plan-generation call — storyboard authoring
(`analyzeImageToStoryboardPlan`) and prompt updating
(`updatePromptsWithEdits`) — a tiered request that succeeds
transport-wise with empty or absent response text fails with the
GENERATION_EMPTY-kind error of that call ("AI 응답 실패" resp.
"업데이트 실패") rather than returning a value; category-suggestion
calls instead return the default category list (claim C8). -/
theorem plan_generation_empty_fails
    (svc : String → PlanRequest → AsyncOp (Option String))
    (parsePlan : String → Except String StoryboardPlan)
    (env : ProcessEnv) (img : String) (mode : AppMode)
    (cat : Option String) (zd : ZoomDirection) (plan : StoryboardPlan)
    (apiKey : Option String) (key : String) (text : Option String)
    (hkey : getAI env apiKey = .ok key)
    (hempty : strTruthy text = false) :
    ((generateWithFallback
        (fun model => svc key (analyzeRequest img mode cat zd model))
        PLAN_MODELS).1 = .ok text →
      analyzeImageToStoryboardPlan svc parsePlan env img mode cat zd apiKey =
        .error "AI 응답 실패") ∧
    ((generateWithFallback (fun model => svc key (updateRequest plan model))
        PLAN_MODELS).1 = .ok text →
      updatePromptsWithEdits svc parsePlan env plan mode apiKey =
        .error "업데이트 실패") := by
  constructor
  · intro hok
    unfold analyzeImageToStoryboardPlan
    rw [hkey]
    simp [hok, hempty]
  · intro hok
    unfold updatePromptsWithEdits
    rw [hkey]
    simp [hok, hempty]

/-- Witness for the amended C7 at a concrete input: a service whose
response settles at once with absent text makes the storyboard
authoring call fail with "AI 응답 실패". -/
theorem plan_generation_empty_fails_witness :
    analyzeImageToStoryboardPlan
        (fun _ _ => AsyncOp.mk (some 0) (Except.ok (none : Option String)))
        (fun _ => Except.error "PARSE") (ProcessEnv.mk none none) "i,m"
        AppMode.shorts none ZoomDirection.zoomIn (some "k") =
      Except.error "AI 응답 실패" :=
  (plan_generation_empty_fails _ _ _ _ AppMode.shorts none ZoomDirection.zoomIn
    (StoryboardPlan.mk "" "" "" "" []) _ "k" none (by decide) (by decide)).1
    (by decide)

/-- C8: a category-suggestion call whose tiered request succeeds
transport-wise with empty or absent response text returns the fixed
5-item default category list and does not fail. -/
theorem suggest_empty_returns_default
    (svc : String → PlanRequest → AsyncOp (Option String))
    (parseStringArray : String → Except String (List String))
    (env : ProcessEnv) (img : String) (apiKey : Option String)
    (key : String) (text : Option String)
    (hkey : getAI env apiKey = .ok key)
    (hok : (generateWithFallback
        (fun model => svc key (suggestRequest img model)) PLAN_MODELS).1 =
      .ok text)
    (hempty : strTruthy text = false) :
    suggestNarrativeCategories svc parseStringArray env img apiKey =
      .ok DEFAULT_CATEGORIES ∧
    DEFAULT_CATEGORIES.length = 5 := by
  constructor
  · unfold suggestNarrativeCategories
    rw [hkey]
    simp [hok, hempty]
  · rfl

/-- Witness for C8 at a concrete input: the first text tier settles at
once with the empty string as response text, and the default 5-item
category list is returned. -/
theorem suggest_empty_returns_default_witness :
    suggestNarrativeCategories
        (fun _ _ => AsyncOp.mk (some 0) (Except.ok (some "")))
        (fun _ => Except.error "PARSE") (ProcessEnv.mk none none)
        "ref,data" (some "user-key") =
      Except.ok DEFAULT_CATEGORIES ∧
    DEFAULT_CATEGORIES.length = 5 :=
  suggest_empty_returns_default _ _ _ "ref,data" (some "user-key") "user-key"
    (some "") (by decide) (by decide) (by decide)

/-- An explicit empty-string credential resolves exactly like an absent
one: the empty string is falsy in `apiKey || ...`. -/
lemma resolveApiKey_empty (env : ProcessEnv) :
    resolveApiKey env (some "") = resolveApiKey env none := rfl

/-- `getAI` treats an explicit empty-string credential like an absent
one. -/
lemma getAI_empty (env : ProcessEnv) :
    getAI env (some "") = getAI env none := by
  unfold getAI
  rw [resolveApiKey_empty]

/-- With both environment defaults falsy, any falsy explicit credential
resolves to a falsy key. -/
lemma resolveApiKey_falsy (env : ProcessEnv) (apiKey : Option String)
    (hak : strTruthy apiKey = false)
    (h1 : strTruthy env.apiKeyVar = false)
    (h2 : strTruthy env.geminiApiKeyVar = false) :
    strTruthy (resolveApiKey env apiKey) = false := by
  unfold resolveApiKey
  rw [hak, h1]
  simpa using h2

/-- A falsy resolved key sends `getAI` down the missing-credential
path. -/
lemma getAI_falsy (env : ProcessEnv) (apiKey : Option String)
    (h : strTruthy (resolveApiKey env apiKey) = false) :
    getAI env apiKey = .error "API_KEY_MISSING" := by
  unfold getAI
  cases hr : resolveApiKey env apiKey with
  | none => rfl
  | some s =>
    rw [hr] at h
    simp only [strTruthy, Bool.not_eq_false'] at h
    simp [h]

/-- C10: every credential-taking operation treats an explicitly supplied
empty-string credential identically to supplying no credential (so the
process-wide default is substituted when one exists), and when no
truthy default exists either, the call takes the missing-credential
path: `{valid: false, proAvailable: false}` with no probe for the
validator, an "API_KEY_MISSING" failure (with no attempt, for the
render call) for the generators. -/
theorem empty_credential_eq_absent :
    (∀ probe env, validateApiKey probe env (some "") =
      validateApiKey probe env none) ∧
    (∀ svc parse env img, suggestNarrativeCategories svc parse env img (some "") =
      suggestNarrativeCategories svc parse env img none) ∧
    (∀ svc parse env img mode cat zd,
      analyzeImageToStoryboardPlan svc parse env img mode cat zd (some "") =
        analyzeImageToStoryboardPlan svc parse env img mode cat zd none) ∧
    (∀ svc parse env plan mode,
      updatePromptsWithEdits svc parse env plan mode (some "") =
        updatePromptsWithEdits svc parse env plan mode none) ∧
    (∀ svc env prompt img isPro config,
      generateStoryShot svc env prompt img isPro config (some "") =
        generateStoryShot svc env prompt img isPro config none) ∧
    (∀ env : ProcessEnv, strTruthy env.apiKeyVar = false →
      strTruthy env.geminiApiKeyVar = false →
      (∀ probe, validateApiKey probe env (some "") =
        ({ valid := false, proAvailable := false }, [])) ∧
      (∀ svc parse img, suggestNarrativeCategories svc parse env img (some "") =
        .error "API_KEY_MISSING") ∧
      (∀ svc parse img mode cat zd,
        analyzeImageToStoryboardPlan svc parse env img mode cat zd (some "") =
          .error "API_KEY_MISSING") ∧
      (∀ svc parse plan mode,
        updatePromptsWithEdits svc parse env plan mode (some "") =
          .error "API_KEY_MISSING") ∧
      (∀ svc prompt img isPro config,
        generateStoryShot svc env prompt img isPro config (some "") =
          (.error "API_KEY_MISSING", []))) := by
  have hfalsy : ∀ env : ProcessEnv, strTruthy env.apiKeyVar = false →
      strTruthy env.geminiApiKeyVar = false →
      strTruthy (resolveApiKey env (some "")) = false := fun env h1 h2 =>
    resolveApiKey_falsy env (some "") rfl h1 h2
  have hmissing : ∀ (env : ProcessEnv) (apiKey : Option String),
      strTruthy (resolveApiKey env apiKey) = false →
      ∀ (svc : String → ImgRequest → AsyncOp (List (Option String)))
        (prompt img : String) (isPro : Bool) (config : ImageConfigIn),
      generateStoryShot svc env prompt img isPro config apiKey =
        (.error "API_KEY_MISSING", []) := by
    intro env apiKey h svc prompt img isPro config
    unfold generateStoryShot
    cases hr : resolveApiKey env apiKey with
    | none => rfl
    | some s =>
      rw [hr] at h
      simp only [strTruthy, Bool.not_eq_false'] at h
      simp [h]
  refine ⟨fun probe env => ?_, fun svc parse env img => ?_,
    fun svc parse env img mode cat zd => ?_, fun svc parse env plan mode => ?_,
    fun svc env prompt img isPro config => ?_, fun env h1 h2 => ?_⟩
  · unfold validateApiKey
    rw [resolveApiKey_empty]
  · unfold suggestNarrativeCategories
    rw [getAI_empty]
  · unfold analyzeImageToStoryboardPlan
    rw [getAI_empty]
  · unfold updatePromptsWithEdits
    rw [getAI_empty]
  · unfold generateStoryShot
    rw [resolveApiKey_empty]
  · have hf := hfalsy env h1 h2
    have hg := getAI_falsy env (some "") hf
    refine ⟨fun probe => ?_, fun svc parse img => ?_,
      fun svc parse img mode cat zd => ?_, fun svc parse plan mode => ?_,
      fun svc prompt img isPro config => hmissing env (some "") hf svc prompt img isPro config⟩
    · unfold validateApiKey
      cases hr : resolveApiKey env (some "") with
      | none => rfl
      | some s =>
        rw [hr] at hf
        simp only [strTruthy, Bool.not_eq_false'] at hf
        simp [hf]
    · unfold suggestNarrativeCategories
      rw [hg]
    · unfold analyzeImageToStoryboardPlan
      rw [hg]
    · unfold updatePromptsWithEdits
      rw [hg]

/-- Witness for C10 at concrete inputs: with both environment variables
unset, the validator behaves identically on the empty-string and the
absent credential, and a render call with the empty-string credential
fails with "API_KEY_MISSING" after zero attempts. -/
theorem empty_credential_eq_absent_witness :
    validateApiKey (fun _ _ => AsyncOp.mk (some 0) (Except.ok ()))
        (ProcessEnv.mk none none) (some "") =
      validateApiKey (fun _ _ => AsyncOp.mk (some 0) (Except.ok ()))
        (ProcessEnv.mk none none) none ∧
    generateStoryShot
        (fun _ _ => AsyncOp.mk (some 0) (Except.ok [some "QUJD"]))
        (ProcessEnv.mk none none) "p" "i,mg" false (ImageConfigIn.mk "" "")
        (some "") = (Except.error "API_KEY_MISSING", []) :=
  ⟨empty_credential_eq_absent.1 _ _,
   (empty_credential_eq_absent.2.2.2.2.2 (ProcessEnv.mk none none)
      (by decide) (by decide)).2.2.2.2 _ _ _ _ _⟩

end Cinematic
